import Mathlib

/-!
Verification development for the wehe-server repository.

Shallow embedding of the Go sources under a rational-number model of
float64 data (no claim depends on floating-point rounding) and an
explicit-state model of the mutable session structures.  Each definition
mirrors the Go function of the same name; file and line references point
into the repository sources.
-/

deriving instance DecidableEq for Except

namespace Wehe

/-- Replay type enum from internal/clienthandler/clienthandler.go (lines 36-41). -/
inductive ReplayType where
  | Original
  | Random
deriving DecidableEq, Repr, Inhabited

/-- ReplayResult struct from internal/clienthandler/clienthandler.go (lines 96-102).
ReplayDuration (a Go time.Duration) is modelled as a rational number of seconds. -/
structure ReplayResult where
  ReplayID : ReplayType
  ReplayName : String
  Throughputs : List ℚ
  SampleTimes : List ℚ
  ReplayDuration : ℚ
deriving DecidableEq, Repr, Inhabited

/-- DataSetStats struct from internal/analysis/analysis.go (lines 53-60).
The Median and StandardDeviation fields are produced by the external gonum
library (floating point, square roots); no claim refers to them, so they are
not carried in the model.  Data, Max, Min and Average are modelled exactly. -/
structure DataSetStats where
  Data : List ℚ
  Max : ℚ
  Min : ℚ
  Average : ℚ
deriving DecidableEq, Repr, Inhabited

/-- AnalysisResults struct from internal/analysis/analysis.go (lines 22-33).
The statistic fields filled in from the external python KS subprocess and the
randomized jackknife are carried as plain values. -/
structure AnalysisResults where
  ThroughputStats : DataSetStats
  SampleTimesStats : DataSetStats
  Area : ℚ
  XPutMin : ℚ
  Area0var : ℚ
  KS2dVal : ℚ
  KS2pVal : ℚ
  DValAvg : ℚ
  PValAvg : ℚ
  KS2AcceptRatio : ℚ
deriving DecidableEq, Repr, Inhabited

/-- Client struct from internal/clienthandler/clienthandler.go (lines 105-119).
The live connection handle, the wall-clock StartTime and the free-form
MobileStats map are I/O state with no bearing on any claim and are omitted;
all other fields are modelled. -/
structure Client where
  UserID : String
  ExtraString : String
  TestID : Int
  IsLastReplay : Bool
  PublicIP : String
  ClientVersion : String
  Exceptions : String
  MLabUUID : String
  ReplayResults : List ReplayResult
  Analysis : Option AnalysisResults
deriving DecidableEq, Repr, Inhabited

/-- NewClient from internal/clienthandler/clienthandler.go (lines 130-143). -/
def NewClient (userID : String) (extraString : String) (testID : Int) (publicIP : String)
    (clientVersion : String) (mlabUUID : String) : Client :=
  { UserID := userID
    ExtraString := extraString
    TestID := testID
    IsLastReplay := false
    PublicIP := publicIP
    ClientVersion := clientVersion
    Exceptions := "NoExp"
    MLabUUID := mlabUUID
    ReplayResults := []
    Analysis := none }

/-- AddReplay from internal/clienthandler/clienthandler.go (lines 149-156):
appends a fresh ReplayResult (zero-valued data fields) and overwrites
IsLastReplay. -/
def AddReplay (clt : Client) (replayID : ReplayType) (replayName : String)
    (isLastReplay : Bool) : Client :=
  { clt with
    ReplayResults := clt.ReplayResults ++
      [{ ReplayID := replayID
         ReplayName := replayName
         Throughputs := []
         SampleTimes := []
         ReplayDuration := 0 }]
    IsLastReplay := isLastReplay }

/-- getCurrentReplay from internal/clienthandler/clienthandler.go (lines 160-166):
the last appended replay, or an error when none exists. -/
def getCurrentReplay (clt : Client) : Except String ReplayResult :=
  match clt.ReplayResults.getLast? with
  | none => .error "There are currently no replays."
  | some r => .ok r

/-- replayExists from internal/clienthandler/clienthandler.go (lines 218-225):
linear scan of the replay catalog for an exact name match. -/
def replayExists (replayNames : List String) (currentReplayName : String) : Bool :=
  replayNames.any (fun replayName => replayName == currentReplayName)

/-- NewDataSetStats from internal/analysis/analysis.go (lines 65-88): drop the
exact zeros, fail when nothing remains, otherwise record the cleaned data in
arrival order together with max, min and arithmetic mean of a sorted copy
(insertionSort models slices.Sort; gonum Mean is the arithmetic mean). -/
def NewDataSetStats (data : List ℚ) : Except String DataSetStats :=
  let cleanedData := data.filter (fun value => value ≠ 0)
  if cleanedData.length = 0 then
    .error "Slice cannot be of length 0."
  else
    let sortedCleanedData := cleanedData.insertionSort (fun a b => a ≤ b)
    .ok { Data := cleanedData
          Max := sortedCleanedData.getLastD 0
          Min := sortedCleanedData.headD 0
          Average := cleanedData.sum / cleanedData.length }

/-- CalculateMinValueOfTwoSlices from internal/analysis/analysis.go (lines 94-96);
slices.Min of the concatenation (callers guarantee nonempty input, the default
is unreachable). -/
def CalculateMinValueOfTwoSlices (slice1 : List ℚ) (slice2 : List ℚ) : ℚ :=
  ((slice1 ++ slice2).min?).getD 0

/-- CalculateArea0Var from internal/analysis/analysis.go (lines 98-100). -/
def CalculateArea0Var (avg1 : ℚ) (avg2 : ℚ) : ℚ :=
  (avg2 - avg1) / max avg1 avg2

/-- ConnectedClients from internal/clienthandler/clienthandler.go (lines 43-46):
the process-wide map from connected client IPs to the replay each wants to run.
The Go map plus mutex is modelled as an association list whose first matching
entry is authoritative; Ask4Permission only inserts keys it has just checked to
be absent, so prepending coincides with Go map assignment on every reachable
state. -/
abbrev ConnectedClients : Type := List (String × String)

/-- ConnectedClients.Has from internal/clienthandler/clienthandler.go (lines 57-62). -/
def ConnectedClients.Has (connectedClients : ConnectedClients) (ip : String) : Bool :=
  (List.lookup ip connectedClients).isSome

/-- ConnectedClients.add from internal/clienthandler/clienthandler.go (lines 81-85). -/
def ConnectedClients.add (connectedClients : ConnectedClients) (ip : String)
    (replayName : String) : ConnectedClients :=
  (ip, replayName) :: connectedClients

/-- ConnectedClients.del from internal/clienthandler/clienthandler.go (lines 89-93). -/
def ConnectedClients.del (connectedClients : ConnectedClients) (ip : String) : ConnectedClients :=
  List.filter (fun p => p.1 ≠ ip) connectedClients

/-- ConnectedClients.size models len(connectedClients.clientIPs) as read by
Ask4Permission at internal/clienthandler/clienthandler.go line 202. -/
def ConnectedClients.size (connectedClients : ConnectedClients) : Nat :=
  connectedClients.length

/-- Status and info constants from internal/clienthandler/clienthandler.go
(lines 25-33); samplesPerReplay = 100. -/
def samplesPerReplay : Nat := 100

def ask4PermissionOkStatus : String := "0"

def ask4PermissionErrorStatus : String := "1"

def ask4PermissionUnknownReplayMsg : String := "1"

def ask4PermissionIPInUseMsg : String := "2"

def ask4PermissionLowResourcesMsg : String := "3"

def ask4PermissionResourceRetrievalFailMsg : String := "4"

/-- Environment observed by the three gopsutil probes inside hasResources
(internal/clienthandler/clienthandler.go lines 232-268).  A `none` models the
corresponding library call returning a non-nil error, making the probe skip
itself.  memUsage and diskUsage are UsedPercent values; netUsage0/netUsage1
are the uint64 BytesSent counters of the two IOCounters calls taken one
second apart. -/
structure ResourceEnv where
  memUsage : Option ℚ
  diskUsage : Option ℚ
  netUsage0 : Option Nat
  netUsage1 : Option Nat
deriving DecidableEq, Repr, Inhabited

/-- Go uint64 subtraction: operands and result wrap modulo 2^64, so a second
counter reading smaller than the first produces a huge wrapped difference
rather than zero. -/
def uint64Sub (a b : Nat) : Nat :=
  (a % 2 ^ 64 + 2 ^ 64 - b % 2 ^ 64) % 2 ^ 64

/-- Go uint64 multiplication: the product wraps modulo 2^64. -/
def uint64Mul (a b : Nat) : Nat :=
  a * b % 2 ^ 64

/-- hasResources from internal/clienthandler/clienthandler.go (lines 232-268).
Returns the possibly-updated client (the Go method sets clt.Exceptions on a
deny; the numeric detail interpolated by fmt.Sprintf is not modelled), the
boolean verdict, and the Go error value.  Every return statement in the source
returns a nil error, which the model makes structurally evident.  The
bytesSent1 - bytesSent0 subtraction and the *8 multiply are uint64 operations
wrapping modulo 2^64 as in Go. -/
def hasResources (env : ResourceEnv) (numConnectedClients : Nat) (clt : Client) :
    Client × Bool × Option String :=
  let netCheck : Client × Bool × Option String :=
    match env.netUsage0, env.netUsage1 with
    | some bytesSent0, some bytesSent1 =>
      let uploadMbps : ℚ := ((uint64Mul (uint64Sub bytesSent1 bytesSent0) 8 : Nat) : ℚ) / 1000000
      if uploadMbps > 2000 then
        ({ clt with Exceptions := "Server Overloaded with Upload Bandwidth Usage" }, false, none)
      else
        (clt, true, none)
    | _, _ => (clt, true, none)
  let diskCheck : Client × Bool × Option String :=
    match env.diskUsage with
    | some diskUsedPercent =>
      if diskUsedPercent > 95 then
        ({ clt with Exceptions := "Server Overloaded with Disk Usage" }, false, none)
      else
        netCheck
    | none => netCheck
  match env.memUsage with
  | some memUsedPercent =>
    if memUsedPercent > 95 then
      ({ clt with Exceptions := "Server Overloaded with Memory Usage" }, false, none)
    else
      diskCheck
  | none => diskCheck

/-- Ask4Permission from internal/clienthandler/clienthandler.go (lines 183-212).
Returns (status, info, updated client, updated registry) on a normal return,
or the propagated getCurrentReplay error.  The three admission rules run in
source order: catalog membership, single-flight per IP, resource headroom. -/
def Ask4Permission (replayNames : List String) (connectedClientIPs : ConnectedClients)
    (env : ResourceEnv) (clt : Client) :
    Except String (String × String × Client × ConnectedClients) :=
  match getCurrentReplay clt with
  | .error e => .error e
  | .ok currentReplay =>
    if ¬ replayExists replayNames currentReplay.ReplayName then
      .ok (ask4PermissionErrorStatus, ask4PermissionUnknownReplayMsg,
           { clt with Exceptions := "UnknownRelplayName" }, connectedClientIPs)
    else if connectedClientIPs.Has clt.PublicIP then
      .ok (ask4PermissionErrorStatus, ask4PermissionIPInUseMsg,
           { clt with Exceptions := "NoPermission" }, connectedClientIPs)
    else
      match hasResources env connectedClientIPs.size clt with
      | (clt2, hasRes, errOpt) =>
        match errOpt with
        | some _ =>
          .ok (ask4PermissionErrorStatus, ask4PermissionResourceRetrievalFailMsg,
               clt2, connectedClientIPs)
        | none =>
          if ¬ hasRes then
            .ok (ask4PermissionErrorStatus, ask4PermissionLowResourcesMsg,
                 clt2, connectedClientIPs)
          else
            .ok (ask4PermissionOkStatus, toString samplesPerReplay,
                 clt2, connectedClientIPs.add clt.PublicIP currentReplay.ReplayName)

/-- AnalyzeTest from internal/clienthandler/clienthandler.go (lines 433-479).
The python scipy KS subprocess (analysis.KS2Samp) and the randomized jackknife
(analysis.SampleKS2) are external effects, modelled as oracle parameters
returning (D, p) and (DValAvg, PValAvg, acceptRatio).  The data fed to the
oracles is exactly what the source feeds them; note that line 457 of the
source passes the SampleTimes of the random replay, not its Throughputs, into
NewDataSetStats. -/
def AnalyzeTest (ks : List ℚ → List ℚ → ℚ × ℚ)
    (jackknife : List ℚ → List ℚ → ℚ → ℚ × ℚ × ℚ) (clt : Client) :
    Except String Client :=
  if clt.ReplayResults.length < 2 then
    .error "There needs to be two results to do 2-sample KS test."
  else
    let r0 := clt.ReplayResults.getD 0 default
    let r1 := clt.ReplayResults.getD 1 default
    let ordered : Option (ReplayResult × ReplayResult) :=
      if r0.ReplayID = ReplayType.Original ∧ r1.ReplayID = ReplayType.Random then
        some (r0, r1)
      else if r0.ReplayID = ReplayType.Random ∧ r1.ReplayID = ReplayType.Original then
        some (r1, r0)
      else
        none
    match ordered with
    | none => .error "Invalid replay types for 2-sample KS test."
    | some (originalReplay, randomReplay) =>
      match NewDataSetStats originalReplay.Throughputs with
      | .error e => .error e
      | .ok originalReplayStats =>
        match NewDataSetStats randomReplay.SampleTimes with
        | .error e => .error e
        | .ok randomReplayStats =>
          let area := randomReplayStats.Average - originalReplayStats.Average
          let xputMin := CalculateMinValueOfTwoSlices originalReplayStats.Data randomReplayStats.Data
          let areaOvar := CalculateArea0Var originalReplayStats.Average randomReplayStats.Average
          let ksOut := ks originalReplayStats.Data randomReplayStats.Data
          let jkOut := jackknife originalReplayStats.Data randomReplayStats.Data ksOut.2
          .ok { clt with
                Analysis := some
                  { ThroughputStats := originalReplayStats
                    SampleTimesStats := randomReplayStats
                    Area := area
                    XPutMin := xputMin
                    Area0var := areaOvar
                    KS2dVal := ksOut.1
                    KS2pVal := ksOut.2
                    DValAvg := jkOut.1
                    PValAvg := jkOut.2.1
                    KS2AcceptRatio := jkOut.2.2 } }

/-- Recursion worker for splitOnChar: accumulates the current field in
reverse. -/
def splitOnCharAux (sep : Char) : List Char → List Char → List String
  | [], acc => [String.mk acc.reverse]
  | c :: rest, acc =>
    if c = sep then String.mk acc.reverse :: splitOnCharAux sep rest []
    else splitOnCharAux sep rest (c :: acc)

/-- Go strings.Split with a one-character separator (the source only ever
splits on ";"): the empty string yields [""], every separator opens a new
field. -/
def splitOnChar (sep : Char) (s : String) : List String :=
  splitOnCharAux sep s.data []

/-- Go strings.Replace(s, "-", "_", -1) - the replay-name normalization; the
pattern is a single character, so it is a character map. -/
def replaceDashUnderscore (s : String) : String :=
  String.mk (s.data.map (fun c => if c = '-' then '_' else c))

/-- Go strings.ToLower on the ASCII inputs the protocol carries. -/
def toLowerStr (s : String) : String :=
  String.mk (s.data.map Char.toLower)

/-- strToBool from internal/clienthandler/clienthandler.go (lines 419-428). -/
def strToBool (str : String) : Option Bool :=
  let lowerStr := toLowerStr str
  if lowerStr = "true" then some true
  else if lowerStr = "false" then some false
  else none

/-- Digit-run parser behind atoi: consumes decimal digits, rejecting any other
character. -/
def digitsValAux : List Char → Nat → Option Nat
  | [], acc => some acc
  | c :: rest, acc =>
    if c.isDigit then digitsValAux rest (acc * 10 + (c.toNat - 48)) else none

/-- Go strconv.Atoi: optional single sign, then one or more decimal digits
(64-bit range limits never bite on the inputs of this development). -/
def atoi (s : String) : Option Int :=
  match s.data with
  | [] => none
  | c :: rest =>
    if c = '-' then
      if rest = [] then none else (digitsValAux rest 0).map (fun n => -(n : Int))
    else if c = '+' then
      if rest = [] then none else (digitsValAux rest 0).map (fun n => (n : Int))
    else
      (digitsValAux (c :: rest) 0).map (fun n => (n : Int))

/-- DeclareReplay from internal/clienthandler/clienthandler.go (lines 377-414).
Parses `<replayID>;<replayName>;<isLastReplay>`, appends the new attempt via
AddReplay, and only afterwards checks the catalog, so the appended attempt
survives the deny path. -/
def DeclareReplay (replayNames : List String) (message : String) (clt : Client) :
    Except String (String × String × Client) :=
  let pieces := splitOnChar ';' message
  if pieces.length < 3 then
    .error "Expected to receive at least 3 pieces from declare replay."
  else
    match atoi (pieces.getD 0 "") with
    | none => .error "replay ID is not an integer"
    | some replayIDInt =>
      let replayID? : Option ReplayType :=
        if replayIDInt = 0 then some ReplayType.Original
        else if replayIDInt = 1 then some ReplayType.Random
        else none
      match replayID? with
      | none => .error "Unexpected replay ID; must be 0 (original) or 1 (random)"
      | some replayID =>
        let replayName := replaceDashUnderscore (pieces.getD 1 "")
        match strToBool (pieces.getD 2 "") with
        | none => .error "Cannot parse isLastReplay into a bool"
        | some isLastReplay =>
          let clt1 := AddReplay clt replayID replayName isLastReplay
          if ¬ replayExists replayNames replayName then
            .ok (ask4PermissionErrorStatus, ask4PermissionUnknownReplayMsg,
                 { clt1 with Exceptions := "UnknownRelplayName" })
          else
            .ok (ask4PermissionOkStatus, toString samplesPerReplay, clt1)

/-- receiveID from internal/network/sidechannel.go (lines 243-311).  The two
connection-derived effects, getClientPublicIP(conn) and uuid.FromTCPConn, are
passed in as Except-valued parameters (the TLS and TCP type assertions of the
source hold on every live connection and are folded into the uuid parameter).
A `none` result models a Go runtime panic: the source indexes pieces[7]
whenever len(pieces) > 6 without checking that index 7 exists, which the model
renders as an out-of-bounds list access. -/
def receiveID (publicIPFromConn : Except String String) (mlabUUIDFromConn : Except String String)
    (message : String) : Option (Except String Client) :=
  let pieces := splitOnChar ';' message
  if pieces.length < 6 then
    some (.error "Expected to receive at least 6 pieces from declare ID.")
  else
    match atoi (pieces.getD 1 "") with
    | none => some (.error "replay ID is not an integer")
    | some replayIDInt =>
      let replayID? : Option ReplayType :=
        if replayIDInt = 0 then some ReplayType.Original
        else if replayIDInt = 1 then some ReplayType.Random
        else none
      match replayID? with
      | none => some (.error "Unexpected replay ID; must be 0 (original) or 1 (random)")
      | some replayID =>
        let userID := pieces.getD 0 ""
        let replayName := replaceDashUnderscore (pieces.getD 2 "")
        let extraString := pieces.getD 3 ""
        match atoi (pieces.getD 4 "") with
        | none => some (.error "test ID is not an integer")
        | some testID =>
          match strToBool (pieces.getD 5 "") with
          | none => some (.error "Cannot parse isLastReplay into a bool")
          | some isLastReplay =>
            match publicIPFromConn with
            | .error e => some (.error e)
            | .ok connIP =>
              let publicIPAndVersion : Option (String × String) :=
                if pieces.length > 6 then
                  let publicIP :=
                    if pieces.getD 6 "" ≠ "127.0.0.1" then pieces.getD 6 "" else connIP
                  match pieces.get? 7 with
                  | none => none
                  | some clientVersion => some (publicIP, clientVersion)
                else
                  some (connIP, "1.0")
              match publicIPAndVersion with
              | none => none
              | some (publicIP, clientVersion) =>
                match mlabUUIDFromConn with
                | .error e => some (.error e)
                | .ok mlabUUID =>
                  some (.ok (AddReplay
                    (NewClient userID extraString testID publicIP clientVersion mlabUUID)
                    replayID replayName isLastReplay))

/-- An IP address as net.ParseIP leaves it: either four IPv4 bytes (To4
succeeds) or a 128-bit IPv6 value. -/
inductive IPAddr where
  | v4 (a b c d : Nat)
  | v6 (n : Nat)
deriving DecidableEq, Repr

/-- getAnonIP from internal/clienthandler/clienthandler.go (lines 484-505),
after parsing: an IPv4 address is masked byte-wise with net.CIDRMask(24, 32) =
ff.ff.ff.00, an IPv6 address is masked with net.CIDRMask(48, 128), which keeps
the top 48 bits (6 bytes) and zeroes the low 80 bits. -/
def getAnonIP : IPAddr → IPAddr
  | IPAddr.v4 a b c d => IPAddr.v4 (a &&& 255) (b &&& 255) (c &&& 255) (d &&& 0)
  | IPAddr.v6 n => IPAddr.v6 ((n >>> 80) <<< 80)

/-- The inner read loop of TCPServer.handleConnection for one response set
(internal/network/tcp.go lines 104-115): keep reading client chunks until the
running byte count reaches the request length.  `reads` is the sequence of
chunk sizes the client connection will deliver; `none` models the loop
blocking on conn.Read with no data left. -/
def tcpReadUntil (requestLength : Nat) : Nat → List Nat → Option (List Nat)
  | numBytes, reads =>
    if numBytes ≥ requestLength then
      some reads
    else
      match reads with
      | [] => none
      | nBytes :: rest => tcpReadUntil requestLength (numBytes + nBytes) rest

/-- The byte-count gating of TCPServer.handleConnection over all response sets
(internal/network/tcp.go lines 102-117): for each request length run the read
loop, then reset numBytes to 0 (line 116) before the next set.  Packet sending
and timing do not touch the byte counter and are not modelled here.  Returns
the unconsumed reads, or `none` when some gate starves. -/
def tcpGateLoop (numBytes : Nat) (reads : List Nat) : List Nat → Option (List Nat)
  | [] => some reads
  | requestLength :: rest =>
    match tcpReadUntil requestLength numBytes reads with
    | none => none
    | some reads2 => tcpGateLoop 0 reads2 rest

/-- Modelled from the spec: read loop companion of tcpGateLoopSpecCarry that
reports the surplus byte count beyond the satisfied gate. -/
def tcpReadUntilCount (requestLength : Nat) : Nat → List Nat → Option (Nat × List Nat)
  | numBytes, reads =>
    if numBytes ≥ requestLength then
      some (numBytes - requestLength, reads)
    else
      match reads with
      | [] => none
      | nBytes :: rest => tcpReadUntilCount requestLength (numBytes + nBytes) rest

/-- Modelled from the spec: the carry-over gating the specification describes
for the TCP replay engine (spec section 4.H and section 8, TCP replay boundary
behavior) - surplus bytes beyond request_byte_count_i count toward the gate of
set i+1.  Used only to contrast with tcpGateLoop, which is the code. -/
def tcpGateLoopSpecCarry (numBytes : Nat) (reads : List Nat) : List Nat → Option (List Nat)
  | [] => some reads
  | requestLength :: rest =>
    match tcpReadUntilCount requestLength numBytes reads with
    | none => none
    | some (surplus, reads2) => tcpGateLoopSpecCarry surplus reads2 rest

/-- Modelled from the spec: the UDP replay send loop (spec section 4.G; the
body of UDPServer.handleConnection in internal/network/udp.go is an empty TODO
stub).  `packets` is the list of trace timestamps in seconds, `present i`
tells whether the session registry still contains the client IP when packet i
is considered, `elapsed` is wall-clock seconds since start_time.  Before each
packet the loop aborts if the registry entry is gone or elapsed exceeds the
45-second hard cap; otherwise it sleeps until the packet timestamp and sends.
Returns final elapsed time and the number of packets sent. -/
def udpSendLoop (present : Nat → Bool) : List ℚ → Nat → ℚ → ℚ × Nat
  | [], _, elapsed => (elapsed, 0)
  | t :: rest, i, elapsed =>
    if ¬ present i ∨ elapsed > 45 then
      (elapsed, 0)
    else
      let elapsed2 := max elapsed t
      let tailRun := udpSendLoop present rest (i + 1) elapsed2
      (tailRun.1, tailRun.2 + 1)

/-- Largest sleep gap of a UDP timestamp schedule: the maximum of the
consecutive differences, starting from the given origin. -/
def maxGapFrom (prev : ℚ) : List ℚ → ℚ
  | [] => 0
  | t :: rest => max (t - prev) (maxGapFrom t rest)

/-- Concrete session fixture: a fresh client from receiveID with one declared
Original replay named Zoom, public IP 9.9.9.9. -/
def sampleClient : Client :=
  AddReplay (NewClient "U123" "x" 42 "9.9.9.9" "4.1" "uuid0") ReplayType.Original "Zoom" false

/-- Concrete session fixture for the analyzer: two completed replay attempts,
Original with throughputs [10, 20] and sample times [1, 2], then Random with
throughputs [30, 40] and sample times [5, 6]. -/
def analyzedClient : Client :=
  { sampleClient with
    ReplayResults :=
      [{ ReplayID := ReplayType.Original
         ReplayName := "Zoom"
         Throughputs := [10, 20]
         SampleTimes := [1, 2]
         ReplayDuration := 10 },
       { ReplayID := ReplayType.Random
         ReplayName := "Zoom"
         Throughputs := [30, 40]
         SampleTimes := [5, 6]
         ReplayDuration := 10 }] }

/-- Unfolding equation for NewDataSetStats, fixing one syntactic form of the
zero filter. -/
theorem newDataSetStats_eq (data : List ℚ) :
    NewDataSetStats data =
      (if (data.filter (fun value => value ≠ 0)).length = 0 then
        .error "Slice cannot be of length 0."
      else
        .ok { Data := data.filter (fun value => value ≠ 0)
              Max := ((data.filter (fun value => value ≠ 0)).insertionSort
                        (fun a b => a ≤ b)).getLastD 0
              Min := ((data.filter (fun value => value ≠ 0)).insertionSort
                        (fun a b => a ≤ b)).headD 0
              Average := (data.filter (fun value => value ≠ 0)).sum /
                           (data.filter (fun value => value ≠ 0)).length }) := rfl

/-- C7: NewDataSetStats errors exactly when every input element is zero
(including the empty input); on success the Data field is the input with the
exact zeros removed, order preserved, hence the dataset handed to the KS test
contains no exact zeros. -/
theorem newDataSetStats_zero_filter (data : List ℚ) :
    ((∃ e, NewDataSetStats data = .error e) ↔ ∀ x ∈ data, x = 0) ∧
    (∀ stats, NewDataSetStats data = .ok stats →
      stats.Data = data.filter (fun value => value ≠ 0) ∧ ∀ x ∈ stats.Data, x ≠ 0) := by
  have hiff : (data.filter (fun value => value ≠ 0)).length = 0 ↔ ∀ x ∈ data, x = 0 := by
    rw [List.length_eq_zero, List.filter_eq_nil_iff]
    constructor
    · intro h x hx
      have := h x hx
      simpa using this
    · intro h x hx
      simpa using h x hx
  constructor
  · constructor
    · rintro ⟨e, he⟩
      rw [newDataSetStats_eq] at he
      by_cases h : (data.filter (fun value => value ≠ 0)).length = 0
      · exact hiff.mp h
      · rw [if_neg h] at he
        exact absurd he (by simp)
    · intro hall
      refine ⟨"Slice cannot be of length 0.", ?_⟩
      rw [newDataSetStats_eq, if_pos (hiff.mpr hall)]
  · intro stats hok
    rw [newDataSetStats_eq] at hok
    by_cases h : (data.filter (fun value => value ≠ 0)).length = 0
    · rw [if_pos h] at hok
      exact absurd hok (by simp)
    · rw [if_neg h] at hok
      cases hok
      refine ⟨rfl, ?_⟩
      intro x hx
      rw [List.mem_filter] at hx
      simpa using hx.2

/-- C7 witness: the all-zero input [0, 0] is rejected with an error. -/
theorem newDataSetStats_zero_filter_witness :
    ∃ e, NewDataSetStats [(0 : ℚ), 0] = .error e :=
  ((newDataSetStats_zero_filter [0, 0]).1).mpr (by decide)

/-- Byte-wise AND with a full mask byte is the identity on byte values. -/
theorem and255_of_lt (a : Nat) (ha : a < 256) : a &&& 255 = a := by
  have h : a &&& (2 ^ 8 - 1) = a := Nat.and_pow_two_sub_one_of_lt_two_pow ha
  norm_num at h
  exact h

/-- C8: getAnonIP maps a valid IPv4 address a.b.c.d to a.b.c.0 (low 8 bits
zeroed); on an IPv6 address it zeroes the low 80 bits and preserves the high
48 bits; and it is idempotent on every address. -/
theorem getAnonIP_spec (a b c d n : Nat)
    (ha : a < 256) (hb : b < 256) (hc : c < 256) (hd : d < 256) :
    getAnonIP (IPAddr.v4 a b c d) = IPAddr.v4 a b c 0 ∧
    (∀ m, getAnonIP (IPAddr.v6 n) = IPAddr.v6 m →
      m % 2 ^ 80 = 0 ∧ m / 2 ^ 80 = n / 2 ^ 80) ∧
    (∀ ip : IPAddr, getAnonIP (getAnonIP ip) = getAnonIP ip) := by
  refine ⟨?_, ?_, ?_⟩
  · simp only [getAnonIP]
    rw [and255_of_lt a ha, and255_of_lt b hb, and255_of_lt c hc, Nat.and_zero]
  · intro m hm
    simp only [getAnonIP] at hm
    have hm2 : (n >>> 80) <<< 80 = m := by injection hm
    rw [← hm2, Nat.shiftLeft_eq, Nat.shiftRight_eq_div_pow]
    constructor
    · exact Nat.mul_mod_left _ _
    · exact Nat.mul_div_cancel _ (Nat.pos_pow_of_pos 80 (by norm_num))
  · intro ip
    cases ip with
    | v4 x y z w =>
      simp only [getAnonIP]
      rw [Nat.and_assoc, Nat.and_assoc, Nat.and_assoc, Nat.and_assoc,
          Nat.and_self, Nat.and_zero, Nat.and_zero]
    | v6 x =>
      simp only [getAnonIP]
      rw [Nat.shiftLeft_eq, Nat.shiftRight_eq_div_pow, Nat.shiftRight_eq_div_pow,
          Nat.shiftLeft_eq, Nat.mul_div_cancel _ (Nat.pos_pow_of_pos 80 (by norm_num))]

/-- C8 witness: anonymizing 203.0.113.7 yields 203.0.113.0, and anonymizing it
again leaves it unchanged. -/
theorem getAnonIP_spec_witness :
    getAnonIP (IPAddr.v4 203 0 113 7) = IPAddr.v4 203 0 113 0 ∧
    getAnonIP (getAnonIP (IPAddr.v4 203 0 113 7)) = getAnonIP (IPAddr.v4 203 0 113 7) :=
  ⟨(getAnonIP_spec 203 0 113 7 0 (by decide) (by decide) (by decide) (by decide)).1,
   (getAnonIP_spec 203 0 113 7 0 (by decide) (by decide) (by decide) (by decide)).2.2
     (IPAddr.v4 203 0 113 7)⟩

/-- C4 counterexample: with 2 bytes already received, response-set gates of 1
and 1 byte, and no further client data, the carry-over semantics claimed by
the spec would finish the replay with the surplus byte covering the second
gate, but the code starves waiting for another read, because line 116 of
tcp.go resets the byte counter to zero after each satisfied gate. -/
theorem tcpGateLoop_surplus_not_carried :
    tcpGateLoopSpecCarry 2 [] [1, 1] = some [] ∧ tcpGateLoop 2 [] [1, 1] = none := by
  constructor
  · rfl
  · rfl

/-- C4 (amended): surplus bytes beyond request_byte_count_i are discarded, not
carried: once a gate is met, processing of the remaining response sets
restarts from a zero byte counter, so it is independent of the size of the
surplus. -/
theorem tcpGateLoop_resets_counter (reads : List Nat) (rest : List Nat)
    (numBytes1 numBytes2 requestLength : Nat)
    (h1 : numBytes1 ≥ requestLength) (h2 : numBytes2 ≥ requestLength) :
    tcpGateLoop numBytes1 reads (requestLength :: rest) =
      tcpGateLoop numBytes2 reads (requestLength :: rest) ∧
    tcpGateLoop numBytes1 reads (requestLength :: rest) = tcpGateLoop 0 reads rest := by
  have hread : ∀ nb, nb ≥ requestLength → tcpReadUntil requestLength nb reads = some reads := by
    intro nb hnb
    unfold tcpReadUntil
    rw [if_pos hnb]
  constructor
  · show (match tcpReadUntil requestLength numBytes1 reads with
          | none => none
          | some reads2 => tcpGateLoop 0 reads2 rest) =
        (match tcpReadUntil requestLength numBytes2 reads with
          | none => none
          | some reads2 => tcpGateLoop 0 reads2 rest)
    rw [hread numBytes1 h1, hread numBytes2 h2]
  · show (match tcpReadUntil requestLength numBytes1 reads with
          | none => none
          | some reads2 => tcpGateLoop 0 reads2 rest) = tcpGateLoop 0 reads rest
    rw [hread numBytes1 h1]

/-- C4 witness: with gates [1, 2] and the surplus counters 5 and 9 both
exceeding the first gate, the remaining behavior is identical and equals a
fresh run of the remaining sets from a zero counter. -/
theorem tcpGateLoop_resets_counter_witness :
    tcpGateLoop 5 [3] [1, 2] = tcpGateLoop 9 [3] [1, 2] ∧
    tcpGateLoop 5 [3] [1, 2] = tcpGateLoop 0 [3] [2] :=
  tcpGateLoop_resets_counter [3] [2] 5 9 1 (by decide) (by decide)

/-- C10: DeclareReplay parses a well-formed message, appends the new replay
attempt and updates IsLastReplay via AddReplay before the catalog check, and
when the (normalized) replay name is absent it returns deny status "1" with
info "1" while the appended attempt stays in ReplayResults. -/
theorem declareReplay_mutates_before_deny (replayNames : List String) (message : String)
    (clt : Client) (ridInt : Int) (b : Bool)
    (hlen : 3 ≤ (splitOnChar ';' message).length)
    (hatoi : atoi ((splitOnChar ';' message).getD 0 "") = some ridInt)
    (hrid : ridInt = 0 ∨ ridInt = 1)
    (hbool : strToBool ((splitOnChar ';' message).getD 2 "") = some b)
    (habsent : replayExists replayNames
      (replaceDashUnderscore ((splitOnChar ';' message).getD 1 "")) = false) :
    DeclareReplay replayNames message clt =
      .ok ("1", "1",
        { clt with
          ReplayResults := clt.ReplayResults ++
            [{ ReplayID := if ridInt = 0 then ReplayType.Original else ReplayType.Random
               ReplayName := replaceDashUnderscore ((splitOnChar ';' message).getD 1 "")
               Throughputs := []
               SampleTimes := []
               ReplayDuration := 0 }]
          IsLastReplay := b
          Exceptions := "UnknownRelplayName" }) := by
  unfold DeclareReplay
  rw [if_neg (by omega), hatoi, hbool]
  simp at habsent
  rcases hrid with hr | hr <;> subst hr <;>
    simp [AddReplay, habsent, ask4PermissionErrorStatus, ask4PermissionUnknownReplayMsg]

/-- C10 witness: declaring the unknown replay "NotThere" on the sample session
returns deny ("1", "1") and leaves the appended Random attempt with
IsLastReplay true in the session. -/
theorem declareReplay_mutates_before_deny_witness :
    DeclareReplay ["Zoom"] "1;NotThere;true" sampleClient =
      .ok ("1", "1",
        { sampleClient with
          ReplayResults := sampleClient.ReplayResults ++
            [{ ReplayID := ReplayType.Random
               ReplayName := "NotThere"
               Throughputs := []
               SampleTimes := []
               ReplayDuration := 0 }]
          IsLastReplay := true
          Exceptions := "UnknownRelplayName" }) := by
  exact declareReplay_mutates_before_deny ["Zoom"] "1;NotThere;true" sampleClient 1 true
    (by decide) (by decide) (Or.inr rfl) (by decide) (by decide)

/-- Every return path of hasResources carries a nil Go error: each probe
tolerates its own failure by skipping itself. -/
theorem hasResources_err_none (env : ResourceEnv) (n : Nat) (clt : Client) :
    (hasResources env n clt).2.2 = none := by
  unfold hasResources
  rcases env with ⟨mem, dsk, nu0, nu1⟩
  cases mem <;> cases dsk <;> cases nu0 <;> cases nu1 <;>
    dsimp only <;> split_ifs <;> rfl

/-- C2 (amended): Ask4Permission evaluates its three rules in source order and
returns on the first failure: unknown replay name denies with info "1" and
tags exceptions "UnknownRelplayName" (the literal the source writes); an IP
already in the registry denies with info "2" and tags "NoPermission";
insufficient resources deny with info "3"; otherwise the pair
(public_ip, replay_name) is inserted into the registry and the reply is ok
status "0" with info "100". -/
theorem ask4Permission_rule_order (replayNames : List String) (reg : ConnectedClients)
    (env : ResourceEnv) (clt : Client) (current : ReplayResult)
    (hcur : clt.ReplayResults.getLast? = some current) :
    (replayExists replayNames current.ReplayName = false →
      Ask4Permission replayNames reg env clt =
        .ok ("1", "1", { clt with Exceptions := "UnknownRelplayName" }, reg)) ∧
    (replayExists replayNames current.ReplayName = true →
      ConnectedClients.Has reg clt.PublicIP = true →
      Ask4Permission replayNames reg env clt =
        .ok ("1", "2", { clt with Exceptions := "NoPermission" }, reg)) ∧
    (replayExists replayNames current.ReplayName = true →
      ConnectedClients.Has reg clt.PublicIP = false →
      (hasResources env (ConnectedClients.size reg) clt).2.1 = false →
      Ask4Permission replayNames reg env clt =
        .ok ("1", "3", (hasResources env (ConnectedClients.size reg) clt).1, reg)) ∧
    (replayExists replayNames current.ReplayName = true →
      ConnectedClients.Has reg clt.PublicIP = false →
      (hasResources env (ConnectedClients.size reg) clt).2.1 = true →
      Ask4Permission replayNames reg env clt =
        .ok ("0", "100", (hasResources env (ConnectedClients.size reg) clt).1,
             ConnectedClients.add reg clt.PublicIP current.ReplayName)) := by
  have herr := hasResources_err_none env (ConnectedClients.size reg) clt
  rcases hhr : hasResources env (ConnectedClients.size reg) clt with ⟨clt2, hasRes, errOpt⟩
  rw [hhr] at herr
  subst herr
  unfold Ask4Permission getCurrentReplay
  rw [hcur]
  refine ⟨?_, ?_, ?_, ?_⟩
  · intro hmiss
    simp [hmiss, ask4PermissionErrorStatus, ask4PermissionUnknownReplayMsg]
  · intro hex hhas
    simp [hex, hhas, ask4PermissionErrorStatus, ask4PermissionIPInUseMsg]
  · intro hex hhas hres
    dsimp only at hres
    subst hres
    simp [hex, hhas, hhr, ask4PermissionErrorStatus, ask4PermissionLowResourcesMsg]
  · intro hex hhas hres
    dsimp only at hres
    subst hres
    have h100 : toString samplesPerReplay = "100" := rfl
    simp [hex, hhas, hhr, ask4PermissionOkStatus, h100]

/-- C2 witness: on the sample session requesting the catalogued replay "Zoom"
with an empty registry every probe skipped, admission succeeds with
("0", "100") and the registry gains the pair (9.9.9.9, Zoom). -/
theorem ask4Permission_rule_order_witness :
    Ask4Permission ["Zoom"] [] ⟨none, none, none, none⟩ sampleClient =
      .ok ("0", "100",
           (hasResources ⟨none, none, none, none⟩ (ConnectedClients.size []) sampleClient).1,
           ConnectedClients.add [] sampleClient.PublicIP "Zoom") :=
  (ask4Permission_rule_order ["Zoom"] [] ⟨none, none, none, none⟩ sampleClient
    { ReplayID := ReplayType.Original
      ReplayName := "Zoom"
      Throughputs := []
      SampleTimes := []
      ReplayDuration := 0 } (by decide)).2.2.2 (by decide) (by decide) (by decide)

/-- C2 counterexample: the exceptions tag written on the unknown-replay deny
path is the misspelled source literal "UnknownRelplayName", not the
"UnknownReplayName" stated by the claim. -/
theorem ask4Permission_exceptions_tag_misspelled :
    (Ask4Permission ["Other"] [] ⟨none, none, none, none⟩ sampleClient).toOption.map
        (fun r => r.2.2.1.Exceptions) = some "UnknownRelplayName" ∧
      "UnknownRelplayName" ≠ "UnknownReplayName" := by
  constructor
  · rfl
  · decide

/-- C5 counterexample: with memory and disk usage both exactly 95 percent and
an idle network, hasResources reports headroom and Ask4Permission admits the
client, contradicting the claim that admission is denied at exactly 95
percent (the source compares with strict greater-than). -/
theorem resources_at_95_admit :
    hasResources ⟨some 95, some 95, some 0, some 0⟩
        (ConnectedClients.size ([] : ConnectedClients)) sampleClient =
      (sampleClient, true, none) ∧
    Ask4Permission ["Zoom"] [] ⟨some 95, some 95, some 0, some 0⟩ sampleClient =
      .ok ("0", "100", sampleClient, [("9.9.9.9", "Zoom")]) := by
  have h1 : hasResources ⟨some 95, some 95, some 0, some 0⟩
      (ConnectedClients.size ([] : ConnectedClients)) sampleClient =
      (sampleClient, true, none) := by
    unfold hasResources uint64Sub uint64Mul
    norm_num
  refine ⟨h1, ?_⟩
  unfold Ask4Permission getCurrentReplay
  rw [h1]
  have h100 : toString samplesPerReplay = "100" := rfl
  simp [ask4PermissionOkStatus, h100, ConnectedClients.add, ConnectedClients.Has, sampleClient,
        AddReplay, NewClient, replayExists]

/-- C5 (amended): with both percentage probes answering, memory or disk
strictly above 95 percent denies, while usage of at most 95 percent (so in
particular exactly 95 percent) together with a below-threshold upload rate
grants the resources check - the boundary comparison is strict. -/
theorem hasResources_95_boundary (n : Nat) (clt : Client) (memq dskq : ℚ) (b0 b1 : Nat) :
    ((memq > 95 ∨ dskq > 95) →
      (hasResources ⟨some memq, some dskq, some b0, some b1⟩ n clt).2.1 = false) ∧
    (memq ≤ 95 → dskq ≤ 95 → uint64Mul (uint64Sub b1 b0) 8 ≤ 2000000000 →
      hasResources ⟨some memq, some dskq, some b0, some b1⟩ n clt = (clt, true, none)) := by
  constructor
  · rintro (h | h)
    · unfold hasResources
      dsimp only
      rw [if_pos h]
    · unfold hasResources
      dsimp only
      by_cases hm : memq > 95
      · rw [if_pos hm]
      · rw [if_neg hm, if_pos h]
  · intro hm hd hnet
    unfold hasResources
    dsimp only
    have hnet2 : ¬ (((uint64Mul (uint64Sub b1 b0) 8 : Nat) : ℚ) / 1000000 > 2000) := by
      rw [not_lt, div_le_iff (by norm_num : (0 : ℚ) < 1000000)]
      have : ((uint64Mul (uint64Sub b1 b0) 8 : Nat) : ℚ) ≤ (2000000000 : ℚ) := by
        exact_mod_cast Nat.cast_le.mpr hnet
      calc ((uint64Mul (uint64Sub b1 b0) 8 : Nat) : ℚ) ≤ (2000000000 : ℚ) := this
        _ = 2000 * 1000000 := by norm_num
    rw [if_neg (not_lt.mpr hm), if_neg (not_lt.mpr hd), if_neg hnet2]

/-- C5 witness: exactly 95 percent memory and disk with an idle network passes
the resources check. -/
theorem hasResources_95_boundary_witness :
    hasResources ⟨some 95, some 95, some 0, some 0⟩ 0 sampleClient =
      (sampleClient, true, none) :=
  (hasResources_95_boundary 0 sampleClient 95 95 0 0).2 (by decide) (by decide) (by decide)

/-- Helper for the ResourceRetrievalFail analysis: a normal return of
Ask4Permission never carries the info code "4", because the only branch that
would produce it requires hasResources to return a non-nil error, and it never
does. -/
theorem ask4Permission_info_ne_four (replayNames : List String) (reg : ConnectedClients)
    (env : ResourceEnv) (clt : Client) (r : String × String × Client × ConnectedClients)
    (h : Ask4Permission replayNames reg env clt = .ok r) : r.2.1 ≠ "4" := by
  unfold Ask4Permission getCurrentReplay at h
  have herr := hasResources_err_none env (ConnectedClients.size reg) clt
  rcases hhr : hasResources env (ConnectedClients.size reg) clt with ⟨clt2, hasRes, errOpt⟩
  rw [hhr] at herr
  subst herr
  rw [hhr] at h
  intro hinfo
  rcases hg : clt.ReplayResults.getLast? with _ | current <;> rw [hg] at h <;> dsimp only at h
  · cases h
  · split at h
    · cases h
      simp [ask4PermissionUnknownReplayMsg] at hinfo
    · split at h
      · cases h
        simp [ask4PermissionIPInUseMsg] at hinfo
      · split at h
        · cases h
          simp [ask4PermissionLowResourcesMsg] at hinfo
        · cases h
          dsimp only at hinfo
          exact absurd hinfo (by decide)

/-- C6 counterexample: no execution of Ask4Permission returns the
ResourceRetrievalFail info code "4" - the claimed failing execution does not
exist, because hasResources tolerates every probe failure and always returns a
nil error. -/
theorem ask4Permission_retrieval_fail_unreachable :
    ¬ ∃ (replayNames : List String) (reg : ConnectedClients) (env : ResourceEnv)
        (clt : Client) (r : String × String × Client × ConnectedClients),
      Ask4Permission replayNames reg env clt = .ok r ∧ r.2.1 = "4" := by
  rintro ⟨replayNames, reg, env, clt, r, heq, hinfo⟩
  exact ask4Permission_info_ne_four replayNames reg env clt r heq hinfo

/-- C6 (amended): the deny reason ResourceRetrievalFail ("4") would be
returned only if retrieving the resource metrics failed, but hasResources
swallows every probe failure and always returns a nil error, so no execution
of Ask4Permission ever returns it. -/
theorem ask4Permission_no_retrieval_fail (replayNames : List String) (reg : ConnectedClients)
    (env : ResourceEnv) (clt : Client) (n : Nat)
    (r : String × String × Client × ConnectedClients)
    (h : Ask4Permission replayNames reg env clt = .ok r) :
    (hasResources env n clt).2.2 = none ∧ r.2.1 ≠ "4" :=
  ⟨hasResources_err_none env n clt, ask4Permission_info_ne_four replayNames reg env clt r h⟩

/-- C6 witness: the successful sample admission returns info "100", which is
not the ResourceRetrievalFail code "4", and its probe run reports a nil
error. -/
theorem ask4Permission_no_retrieval_fail_witness :
    (hasResources ⟨none, none, none, none⟩ 0 sampleClient).2.2 = none ∧
      (("0", "100", (hasResources ⟨none, none, none, none⟩
          (ConnectedClients.size ([] : ConnectedClients)) sampleClient).1,
        ConnectedClients.add [] sampleClient.PublicIP "Zoom") :
          String × String × Client × ConnectedClients).2.1 ≠ "4" :=
  ask4Permission_no_retrieval_fail ["Zoom"] [] ⟨none, none, none, none⟩ sampleClient 0
    ("0", "100", (hasResources ⟨none, none, none, none⟩
        (ConnectedClients.size ([] : ConnectedClients)) sampleClient).1,
      ConnectedClients.add [] sampleClient.PublicIP "Zoom") (by decide)

/-- C1: evaluating AnalyzeTest on a session whose first two attempts are one
Original (throughputs [10, 20], sample times [1, 2]) and one Random
(throughputs [30, 40], sample times [5, 6]) shows the second dataset handed to
the statistics is the Random attempt sample-times array [5, 6]
(clienthandler.go line 457 passes SampleTimes), not its throughput array
[30, 40] as the claim, the doc comment of AnalyzeTest, and spec section 9
describe. -/
theorem analyzeTest_feeds_random_sample_times :
    ((AnalyzeTest (fun _ _ => (0, 0)) (fun _ _ _ => (0, 0, 0)) analyzedClient).toOption.bind
        (fun c => c.Analysis)).map
        (fun a => (a.ThroughputStats.Data, a.SampleTimesStats.Data)) =
      some ([10, 20], [5, 6]) ∧
    (analyzedClient.ReplayResults.getD 1 default).SampleTimes = [5, 6] ∧
    (analyzedClient.ReplayResults.getD 1 default).Throughputs = [30, 40] ∧
    ([5, 6] : List ℚ) ≠ [30, 40] := by
  refine ⟨rfl, rfl, rfl, by decide⟩

/-- C3 helper: along a schedule that is chain-monotone from its origin, every
consecutive gap is nonnegative, so the largest gap is nonnegative. -/
theorem maxGapFrom_nonneg (packets : List ℚ) (prev : ℚ)
    (h : List.Chain (fun a b => a ≤ b) prev packets) : 0 ≤ maxGapFrom prev packets := by
  cases packets with
  | nil => simp [maxGapFrom]
  | cons t rest =>
    rcases h with _ | ⟨hpt, hrest⟩
    simp only [maxGapFrom]
    have h1 : (0 : ℚ) ≤ t - prev := by linarith
    exact le_trans h1 (le_max_left _ _)

/-- C3 helper: the send loop, started at elapsed time prev with a schedule
chain-monotone from prev, finishes no later than max prev (45 + largest
gap). -/
theorem udpSendLoop_le (present : Nat → Bool) :
    ∀ (packets : List ℚ) (i : Nat) (prev : ℚ),
      List.Chain (fun a b => a ≤ b) prev packets →
      (udpSendLoop present packets i prev).1 ≤ max prev (45 + maxGapFrom prev packets) := by
  intro packets
  induction packets with
  | nil =>
    intro i prev _
    simp [udpSendLoop]
  | cons t rest ih =>
    intro i prev hchain
    rcases hchain with _ | ⟨hpt, hrest⟩
    unfold udpSendLoop
    by_cases habort : ¬ present i = true ∨ prev > 45
    · rw [if_pos habort]
      exact le_max_left _ _
    · rw [if_neg habort]
      push_neg at habort
      have h45 : prev ≤ 45 := habort.2
      dsimp only
      rw [max_eq_right hpt]
      have h1 := ih (i + 1) t hrest
      refine le_trans h1 ?_
      simp only [maxGapFrom]
      apply max_le
      · have h2 : t ≤ 45 + (t - prev) := by linarith
        have h3 : 45 + (t - prev) ≤ 45 + max (t - prev) (maxGapFrom t rest) := by
          have := le_max_left (t - prev) (maxGapFrom t rest)
          linarith
        exact le_trans (le_trans h2 h3) (le_max_right _ _)
      · have h4 : 45 + maxGapFrom t rest ≤ 45 + max (t - prev) (maxGapFrom t rest) := by
          have := le_max_right (t - prev) (maxGapFrom t rest)
          linarith
        exact le_trans h4 (le_max_right _ _)

/-- C3: the UDP send loop aborts as soon as the session registry no longer
contains the client IP or wall-clock elapsed time exceeds the 45-second hard
cap, and consequently, for a schedule with nondecreasing nonnegative
timestamps, the total elapsed send time never exceeds 45 seconds plus one
packet sleep slack (the largest single sleep gap of the schedule). -/
theorem udpSendLoop_abort_and_cap (present : Nat → Bool) (packets : List ℚ)
    (hchain : List.Chain (fun a b => a ≤ b) 0 packets) :
    (∀ (i : Nat) (elapsed : ℚ) (t : ℚ) (rest : List ℚ),
        present i = false ∨ elapsed > 45 →
        udpSendLoop present (t :: rest) i elapsed = (elapsed, 0)) ∧
    (udpSendLoop present packets 0 0).1 ≤ 45 + maxGapFrom 0 packets := by
  constructor
  · intro i elapsed t rest habort
    unfold udpSendLoop
    rcases habort with hb | hb
    · rw [if_pos (Or.inl (by simp [hb]))]
    · rw [if_pos (Or.inr hb)]
  · have h := udpSendLoop_le present packets 0 0 hchain
    have hnn : 0 ≤ maxGapFrom 0 packets := maxGapFrom_nonneg packets 0 hchain
    rw [max_eq_right (by linarith)] at h
    exact h

/-- C3 witness: for the three-packet schedule at 1 s, 50 s and 60 s with the
client always registered, the loop stops once elapsed time passes 45 s and the
final elapsed time respects the 45 s plus one-gap bound. -/
theorem udpSendLoop_abort_and_cap_witness :
    (udpSendLoop (fun _ => true) [1, 50, 60] 0 0).1 ≤ 45 + maxGapFrom 0 [1, 50, 60] :=
  (udpSendLoop_abort_and_cap (fun _ => true) [1, 50, 60]
    (List.Chain.cons (by decide) (List.Chain.cons (by decide)
      (List.Chain.cons (by decide) List.Chain.nil)))).2

/-- C9 (amended): receiveID is total exactly on bodies whose semicolon-split
does not yield exactly 7 fields: a body with exactly 7 fields whose six
mandatory fields parse (replay id 0 or 1, integer test id, boolean
is_last_replay) and whose peer-address lookup succeeds passes the length
guard, then indexes pieces[7] out of bounds, so the handler does not return
normally (the embedding yields none); a body with any other number of fields
always returns normally. -/
theorem receiveID_seven_field_panic (ipAddr : String)
    (ipRes uuidRes uuidRes2 : Except String String) (message : String) :
    ((splitOnChar ';' message).length = 7 →
      (atoi ((splitOnChar ';' message).getD 1 "") = some 0 ∨
        atoi ((splitOnChar ';' message).getD 1 "") = some 1) →
      (atoi ((splitOnChar ';' message).getD 4 "")).isSome = true →
      (strToBool ((splitOnChar ';' message).getD 5 "")).isSome = true →
      receiveID (.ok ipAddr) uuidRes message = none) ∧
    ((splitOnChar ';' message).length ≠ 7 →
      (receiveID ipRes uuidRes2 message).isSome = true) := by
  constructor
  · intro h7 hrid htid hbool
    obtain ⟨tid, htid2⟩ := Option.isSome_iff_exists.mp htid
    obtain ⟨bl, hbl2⟩ := Option.isSome_iff_exists.mp hbool
    have hget7 : (splitOnChar ';' message).get? 7 = none :=
      List.get?_eq_none.mpr (by omega)
    unfold receiveID
    rw [if_neg (by omega), htid2, hbl2, hget7]
    rcases hrid with h | h <;> rw [h] <;>
      simp [if_pos (by omega : (splitOnChar ';' message).length > 6)]
  · intro h7
    unfold receiveID
    by_cases hlen : (splitOnChar ';' message).length < 6
    · rw [if_pos hlen]
      rfl
    · rw [if_neg hlen]
      repeat' split
      all_goals first
        | rfl
        | (exfalso
           simp only [List.get?_eq_none] at *
           omega)

/-- C9 witness: the 7-field body carrying the six mandatory fields plus a
public IP but no client version drives receiveID into the out-of-bounds
pieces[7] access: the handler does not return normally. -/
theorem receiveID_seven_field_panic_witness :
    receiveID (.ok "1.2.3.4") (.ok "uuid0") "U1234567890;0;Zoom;x;42;false;9.9.9.9" = none :=
  (receiveID_seven_field_panic "1.2.3.4" (.ok "1.2.3.4") (.ok "uuid0") (.ok "uuid0")
    "U1234567890;0;Zoom;x;42;false;9.9.9.9").1 (by decide) (Or.inl (by decide))
    (by decide) (by decide)

/-- C9 counterexample: a body splitting into 2 fields is neither 6 fields nor
at least 8, yet receiveID is total on it, returning the length-guard error
normally - so receiveID is not total only on 6-field or at-least-8-field
bodies. -/
theorem receiveID_total_on_short_body :
    (splitOnChar ';' "a;b").length = 2 ∧
    (receiveID (.ok "1.2.3.4") (.ok "uuid0") "a;b").isSome = true := by
  constructor
  · rfl
  · rfl

end Wehe
